import Mathlib

/-!
Verification of the link_scraper repository's link discovery and collection
pipeline, as a shallow embedding of:

* the persistent-numbering element tracker injected into the page
  (src/scraper/google.py, inject_highlighter JavaScript, and the identical
  tracker in src/scraper/bing.py);
* the collector loop, engine session and parallel orchestrator
  (src/scraper/scraper.py);
* the Bing organic-result classifier isOrganicSearchResult
  (src/scraper/bing.py);
* the cross-engine merge performed by format_results
  (src/scraper/scraper.py).

Browser-supplied data (element visibility, classification inputs, poll
results, raised errors) is modelled as explicit environment parameters.
-/

/-! ## String helpers

The JavaScript and Python string operations used by the source are embedded
as executable functions on the character lists of Lean strings, because the
built-in String.toLower / String.splitOn do not evaluate inside the kernel.
-/

/-- charsLead l n is true when the list n is an initial segment of l. -/
def charsLead : List Char → List Char → Bool
  | _, [] => true
  | [], _ :: _ => false
  | c :: cs, d :: ds => decide (c = d) && charsLead cs ds

/-- charsContain l n is true when n occurs contiguously inside l. -/
def charsContain : List Char → List Char → Bool
  | [], needle => needle.isEmpty
  | c :: cs, needle => charsLead (c :: cs) needle || charsContain cs needle

/-- Substring test: needle occurs inside hay. Models Python's in operator on
strings and JavaScript's String.includes. -/
def strContains (hay needle : String) : Bool :=
  charsContain hay.data needle.data

/-- Models JavaScript's String.startsWith. -/
def strStarts (s lead : String) : Bool :=
  charsLead s.data lead.data

/-- ASCII lower-casing of one character, as applied by toLowerCase to the
class names and text the classifier inspects. -/
def charToLower (c : Char) : Char :=
  if 65 ≤ c.toNat ∧ c.toNat ≤ 90 then Char.ofNat (c.toNat + 32) else c

/-- Models JavaScript's String.toLowerCase for the ASCII range. -/
def strLower (s : String) : List Char :=
  s.data.map charToLower

/-- Whitespace test used for trimming and class-attribute tokenising. -/
def isWsp (c : Char) : Bool :=
  c.toNat = 32 ∨ (9 ≤ c.toNat ∧ c.toNat ≤ 13)

/-- Models JavaScript's String.trim. -/
def strTrim (s : String) : List Char :=
  ((s.data.dropWhile isWsp).reverse.dropWhile isWsp).reverse

/-- Split a class attribute value into whitespace-separated tokens. -/
def splitWsAux : List Char → List Char → List (List Char)
  | [], acc => [acc.reverse]
  | c :: cs, acc => if isWsp c then acc.reverse :: splitWsAux cs [] else splitWsAux cs (c :: acc)

/-- classHasToken cls tok: a CSS class selector .tok matches an element whose
class attribute cls contains tok as a whitespace-separated token. -/
def classHasToken (cls tok : String) : Bool :=
  (splitWsAux cls.data []).contains tok.data

/-! ## Persistent numbering tracker

Embedding of the JavaScript injected by inject_highlighter: the global
state globalLinkCounter / processedLinks / activeHighlights (google.py
lines 61-63, bing.py lines 62-64) and the scan routine processH3Elements
(google.py lines 164-219) / processH2Elements (bing.py lines 273-329),
which are identical up to the per-engine admission predicate. JavaScript
Map iteration follows insertion order, so the maps are embedded as
insertion-ordered association lists.
-/

/-- One candidate heading element as presented to a tracker scan. fp is the
content fingerprint computed by getElementId (google.py lines 67-72);
qualifies is the engine's admission predicate (h3HasLink for Google,
google.py line 171; h2HasLink together with isOrganicSearchResult for Bing,
bing.py lines 280-281); visible is the isElementVisible verdict (google.py
lines 75-99). -/
structure ScanElem where
  fp : String
  qualifies : Bool
  visible : Bool
deriving DecidableEq

/-- Tracker state: the session counter and the two insertion-ordered maps
from fingerprint to assigned number. -/
structure TrackerState where
  counter : Nat
  processedLinks : List (String × Nat)
  activeHighlights : List (String × Nat)
deriving DecidableEq

/-- State of the freshly injected highlighter. -/
def initTracker : TrackerState := ⟨0, [], []⟩

/-- Map.get on an insertion-ordered association list. -/
def mapGet : List (String × Nat) → String → Option Nat
  | [], _ => none
  | p :: ps, k => if p.1 = k then some p.2 else mapGet ps k

/-- Discovery step (google.py lines 179-188): when the fingerprint is
unseen, increment globalLinkCounter and record the new number in
processedLinks; the map is never written on any other path. -/
def trackStep (s : TrackerState) (fp : String) : TrackerState :=
  if (mapGet s.processedLinks fp).isNone then
    { counter := s.counter + 1,
      processedLinks := s.processedLinks ++ [(fp, s.counter + 1)],
      activeHighlights := s.activeHighlights }
  else s

/-- Highlight step (google.py lines 190-202): a visible element without an
active highlight gets one, labelled with the number stored for its
fingerprint in processedLinks. -/
def highlightStep (s : TrackerState) (fp : String) : TrackerState :=
  if (mapGet s.activeHighlights fp).isNone then
    { s with activeHighlights :=
        s.activeHighlights ++ [(fp, (mapGet s.processedLinks fp).getD 0)] }
  else s

/-- Body of the per-element forEach of a scan (google.py lines 170-204):
non-qualifying elements are skipped; an invisible element leaves all state
untouched; a visible one joins the currentlyVisible set (second component)
and passes through the discovery and highlight steps. -/
def observeElem (sv : TrackerState × List String) (e : ScanElem) :
    TrackerState × List String :=
  if e.qualifies && e.visible then
    (highlightStep (trackStep sv.1 e.fp) e.fp,
     if sv.2.contains e.fp then sv.2 else sv.2 ++ [e.fp])
  else sv

/-- One complete scan pass (google.py lines 164-219): fold the per-element
step over the page's candidate headings, then remove every active highlight
whose fingerprint was not seen visible during the pass (lines 206-213).
processedLinks and the counter survive untouched. -/
def processScan (s : TrackerState) (elems : List ScanElem) : TrackerState :=
  let r := elems.foldl observeElem (s, [])
  { r.1 with activeHighlights := r.1.activeHighlights.filter (fun p => r.2.contains p.1) }

/-- A session's tracker evolution: the scans triggered by activation and by
mutation, scroll and resize events, applied in order to the freshly
injected state. -/
def trackerRun (scans : List (List ScanElem)) : TrackerState :=
  scans.foldl processScan initTracker

/-! ## Reading the highlighted set -/

/-- Title, url and domain of the live node a fingerprint currently resolves
to, as read by window.getHighlightedLinksInfo. -/
structure PageInfo where
  title : String
  url : String
  domain : String
deriving DecidableEq

/-- CollectedLink: the record pushed by getHighlightedLinksInfo and consumed
by collect_links (google.py lines 269-276). -/
structure Link where
  number : Nat
  title : String
  url : String
  domain : String
deriving DecidableEq

/-- Insert a link into a list sorted ascending by assigned number. -/
def insertByNumber (x : Link) : List Link → List Link
  | [] => [x]
  | y :: ys => if x.number ≤ y.number then x :: y :: ys else y :: insertByNumber x ys

/-- links.sort by the comparator a.number - b.number (google.py line 279). -/
def sortByNumber (l : List Link) : List Link :=
  l.foldr insertByNumber []

/-- window.getHighlightedLinksInfo (google.py lines 257-280, bing.py lines
367-390): walk the active highlight map, resolve each fingerprint to its
live node's data (resolve returns none when the node is detached from the
document or carries no anchor), and sort ascending by assigned number. -/
def getHighlightedLinksInfo (s : TrackerState) (resolve : String → Option PageInfo) :
    List Link :=
  sortByNumber (s.activeHighlights.filterMap
    (fun p => (resolve p.1).map (fun pi => ⟨p.2, pi.title, pi.url, pi.domain⟩)))

/-! ## Collector loop (BaseScraper.collect_links, scraper.py lines 141-197) -/

/-- What the page returns for one iteration of the collection loop. polled
is the value of evaluating window.getHighlightedLinksInfo() (none models a
raised script-evaluation error, read as an empty list, scraper.py lines
150-153); scrollOk is whether the scrollBy evaluation succeeded (lines
172-177); atBottom is the bottom-detection result (none models a raised
error, read as false, lines 182-189). -/
structure PollStep where
  polled : Option (List Link)
  scrollOk : Bool
  atBottom : Option Bool

/-- BaseScraper.get_excluded_domains (scraper.py lines 199-206). -/
def base_excluded_domains : List String :=
  [("youtube.com"), ("youtu.be"), ("m.youtube.com"),
   ("vimeo.com"), ("dailymotion.com"), ("twitch.tv"),
   ("tiktok.com"), ("instagram.com/reel"), ("facebook.com/watch")]

/-- GoogleScraper.get_excluded_domains (google.py lines 40-45). -/
def google_excluded_domains : List String :=
  [("google.com"), ("googleapis.com"), ("googleusercontent.com")] ++ base_excluded_domains

/-- BingScraper.get_excluded_domains (bing.py lines 41-46). -/
def bing_excluded_domains : List String :=
  [("bing.com"), ("microsoft.com"), ("msn.com"), ("microsoftonline.com")] ++
    base_excluded_domains

/-- any(domain in link.domain for domain in excluded) (scraper.py line 159). -/
def excludedHit (excl : List String) (domain : String) : Bool :=
  excl.any (fun d => strContains domain d)

/-- Body of the for-link loop over one poll's results (scraper.py lines
156-163): a link is appended only when its url has not been collected and
the target count has not been reached, and is skipped silently when its
domain matches an excluded pattern. The accumulator carries the collected
links and the collected_urls set. -/
def addLink (numLinks : Nat) (excl : List String) (acc : List Link × List String)
    (link : Link) : List Link × List String :=
  if link.url ∉ acc.2 ∧ acc.1.length < numLinks then
    if excludedHit excl link.domain then acc
    else (acc.1 ++ [link], acc.2 ++ [link.url])
  else acc

/-- Process one poll's link list against the accumulated collection. -/
def addPoll (numLinks : Nat) (excl : List String) (coll : List Link)
    (urls : List String) (links : List Link) : List Link × List String :=
  links.foldl (addLink numLinks excl) (coll, urls)

/-- The while loop of collect_links (scraper.py lines 148-192). attempts
mirrors scroll_attempts and indexes the environment; fuel equals
max_scroll_attempts - attempts, so fuel = 0 exactly when the scroll-attempt
bound is exhausted. After absorbing a poll the loop stops when the target
is reached, when the scroll evaluation fails, or when the bottom of the
page is detected; otherwise it continues with the next attempt. -/
def collectLoop (numLinks : Nat) (excl : List String) (env : Nat → PollStep) :
    List Link → List String → Nat → Nat → List Link
  | coll, _, _, 0 => coll
  | coll, urls, attempts, fuel + 1 =>
    if coll.length < numLinks then
      if numLinks ≤ (addPoll numLinks excl coll urls ((env attempts).polled.getD [])).1.length then
        (addPoll numLinks excl coll urls ((env attempts).polled.getD [])).1
      else if !(env attempts).scrollOk then
        (addPoll numLinks excl coll urls ((env attempts).polled.getD [])).1
      else if (env attempts).atBottom.getD false then
        (addPoll numLinks excl coll urls ((env attempts).polled.getD [])).1
      else
        collectLoop numLinks excl env
          (addPoll numLinks excl coll urls ((env attempts).polled.getD [])).1
          (addPoll numLinks excl coll urls ((env attempts).polled.getD [])).2
          (attempts + 1) fuel
    else coll

/-- BaseScraper.collect_links (scraper.py lines 141-197), with
max_scroll_attempts = 20 and empty initial collection. -/
def collect_links (numLinks : Nat) (excl : List String) (env : Nat → PollStep) :
    List Link :=
  collectLoop numLinks excl env [] [] 0 20

/-- Replace attempt k's poll outcome by the empty-success outcome it is read
as: none (a raised script error) and some [] are indistinguishable through
the .getD [] read in the loop. -/
def maskPolledAt (env : Nat → PollStep) (k : Nat) : Nat → PollStep :=
  fun i =>
    if i = k then ⟨some ((env k).polled.getD []), (env k).scrollOk, (env k).atBottom⟩
    else env i

/-! ## Engine session and orchestrator (scraper.py lines 208-475) -/

/-- The structured outcome dictionary built by BaseScraper.run and consumed
by the orchestrator: source name, collected links, success/failed status
and optional error text. The elapsed duration is omitted. -/
structure EngineResult where
  source : String
  links : List Link
  status : String
  error : Option String
deriving DecidableEq

/-- Environment of one session: fault is the text of an exception raised
anywhere in run's try block (none when no exception occurs), searchOk is
the boolean returned by perform_search, polls drives collect_links. -/
structure SessionEnv where
  fault : Option String
  searchOk : Bool
  polls : Nat → PollStep

/-- BaseScraper.run (scraper.py lines 208-277): an exception anywhere in
the try block yields a failed result carrying the error text and no links
(lines 263-270); a False from perform_search yields the Search failed
result (lines 227-234); otherwise the collected links are returned with
status success (lines 246-261). -/
def runSession (name : String) (numLinks : Nat) (excl : List String)
    (env : SessionEnv) : EngineResult :=
  match env.fault with
  | some e => ⟨name, [], ("failed"), some e⟩
  | none =>
    if env.searchOk then
      ⟨name, collect_links numLinks excl env.polls, ("success"), none⟩
    else
      ⟨name, [], ("failed"), some ("Search failed")⟩

/-- Normalisation applied to each asyncio.gather outcome in run_scrapers
(scraper.py lines 428-440): an exception becomes a synthetic failed result
for the corresponding engine, a returned result passes through unchanged. -/
def processOutcome (source : String) : Except String EngineResult → EngineResult
  | Except.error e => ⟨source, [], ("failed"), some e⟩
  | Except.ok r => r

/-- run_scrapers (scraper.py lines 398-456): gather both session outcomes
and normalise each; the result list always holds one entry per engine,
Google first. -/
def run_scrapers (g b : Except String EngineResult) : List EngineResult :=
  [processOutcome ("Google") g, processOutcome ("Bing") b]

/-- The outer except branch of run_scrapers (scraper.py lines 458-475):
a fault in the gather itself yields a failed result for both engines. -/
def runScrapersCrash (e : String) : List EngineResult :=
  [⟨("Google"), [], ("failed"), some e⟩, ⟨("Bing"), [], ("failed"), some e⟩]

/-- A session task's outcome as seen by asyncio.gather with
return_exceptions=True: crash is an unexpected fault escaping run itself
(outside its internal try), otherwise run's structured result. -/
def sessionOutcome (name : String) (numLinks : Nat) (excl : List String)
    (crash : Option String) (env : SessionEnv) : Except String EngineResult :=
  match crash with
  | some c => Except.error c
  | none => Except.ok (runSession name numLinks excl env)

/-- A failed result carries no links and a non-null error string. -/
def failedImpliesEmpty (r : EngineResult) : Bool :=
  r.status != ("failed") || (r.links.isEmpty && r.error.isSome)

/-! ## Cross-engine merge (format_results, scraper.py lines 316-321, 369-371) -/

/-- The duplicate removal of format_results: keep Google's links unchanged,
drop every Bing link whose URL is already in Google's URL set, and report
the number of dropped links as original_bing_count - len(bing_links). -/
def mergeBing (googleLinks bingLinks : List Link) : List Link × Nat :=
  let googleUrls := googleLinks.map Link.url
  let bing2 := bingLinks.filter (fun l => decide (l.url ∉ googleUrls))
  (bing2, bingLinks.length - bing2.length)

/-! ## Bing organic-result classifier (isOrganicSearchResult, bing.py lines 108-213) -/

/-- A DOM element as inspected by the classifier: tag name, raw class
attribute, id attribute, presence of a data-priority attribute, whether it
carries role equal to listitem, and whether a querySelector for
.b_caption, .b_attribution, .b_adurl, cite finds a descendant. -/
structure BElem where
  tag : String
  className : String
  idAttr : String
  hasDataPriority : Bool
  roleListitem : Bool
  hasOrganicIndicatorDesc : Bool
deriving DecidableEq

/-- The heading under classification: the h2 element itself, its ancestor
chain nearest-first, its raw textContent, whether querySelector finds an
anchor descendant, and the href of the anchor obtained by querySelector or
else closest (none when neither exists). -/
structure H2Ctx where
  self : BElem
  ancestors : List BElem
  text : String
  anchorDesc : Bool
  link : Option String
deriving DecidableEq

/-- The node list walked by closest: the element itself, then its
ancestors nearest-first. -/
def bingChain (h : H2Ctx) : List BElem := h.self :: h.ancestors

/-- Match against the organic-container selector .b_algo, .b_algoheader,
li.b_algo, div.b_algo, [data-priority], .b_title, .b_caption
(bing.py line 112). -/
def matchesOrganicContainer (e : BElem) : Bool :=
  classHasToken e.className ("b_algo") || classHasToken e.className ("b_algoheader") ||
  (e.tag == ("li") && classHasToken e.className ("b_algo")) ||
  (e.tag == ("div") && classHasToken e.className ("b_algo")) ||
  e.hasDataPriority || classHasToken e.className ("b_title") ||
  classHasToken e.className ("b_caption")

/-- Match against the result-item selector li, .result, [role="listitem"],
.b_attribution (bing.py line 119). -/
def matchesResultItem (e : BElem) : Bool :=
  e.tag == ("li") || classHasToken e.className ("result") || e.roleListitem ||
  classHasToken e.className ("b_attribution")

/-- Stage 1 (bing.py lines 111-116): the heading sits in a clear organic
container. -/
def stageOrganicContainer (h : H2Ctx) : Bool :=
  ((bingChain h).find? matchesOrganicContainer).isSome

/-- Stage 2 (bing.py lines 118-127): the enclosing result item carries an
organic indicator descendant. -/
def stageResultItem (h : H2Ctx) : Bool :=
  match (bingChain h).find? matchesResultItem with
  | some ri => ri.hasOrganicIndicatorDesc
  | none => false

/-- AI-summary keyword list (bing.py lines 133-137). -/
def aiSummaryKeywords : List String :=
  [("ai summary"), ("ai-generated"), ("generated by ai"), ("copilot"), ("chatgpt"),
   ("ai overview"), ("ai response"), ("generated summary"), ("ai-powered"),
   ("artificial intelligence"), ("machine learning"), ("auto-generated")]

/-- Sponsored keyword list (bing.py lines 140-143). -/
def sponsoredKeywords : List String :=
  [("sponsored"), ("advertisement"), ("promoted"), ("ad"), ("ads"),
   ("promotion"), ("promotional"), ("partner"), ("affiliate")]

/-- Stage 3 (bing.py lines 145-151): the trimmed, lower-cased text contains
an AI or sponsored keyword as a substring. -/
def stageKeyword (h : H2Ctx) : Bool :=
  (aiSummaryKeywords ++ sponsoredKeywords).any
    (fun k => charsContain ((strTrim h.text).map charToLower) k.data)

/-- Class-substring blocklist of the ancestor walk (bing.py lines 162-170). -/
def blockClassTokens : List String :=
  [("b_ad"), ("b_sponsored"), ("b_promotion"), ("b_ai"), ("b_copilot"),
   ("b_summary"), ("sidebar"), ("related"), ("carousel")]

/-- One node's test inside the ancestor walk: a blocklisted substring in the
lower-cased class attribute, or sidebar/related in the lower-cased id. -/
def nodeBlocklisted (e : BElem) : Bool :=
  blockClassTokens.any (fun t => charsContain (strLower e.className) t.data) ||
  charsContain (strLower e.idAttr) ("sidebar").data ||
  charsContain (strLower e.idAttr) ("related").data

/-- Stage 4 (bing.py lines 153-178): walk the element and up to four
ancestors, rejecting on any blocklisted class or id. -/
def stageBlocklist (h : H2Ctx) : Bool :=
  ((bingChain h).take 5).any nodeBlocklisted

/-- Stage 5 (bing.py lines 180-203): verdict from the resolved link target,
none when the stage falls through to the fallback. -/
def stageLinkVerdict (h : H2Ctx) : Option Bool :=
  match h.link with
  | none => none
  | some href =>
    if href != ("") &&
        (strContains href ("bing.com") || strContains href ("microsoft.com") ||
         strContains href ("copilot") || strContains href ("chatgpt") ||
         strContains href ("#") || strStarts href ("javascript:")) then
      some false
    else if href != ("") && (strStarts href ("http://") || strStarts href ("https://")) then
      some true
    else none

/-- Stage 6 fallback (bing.py lines 205-212): an anchor descendant and text
longer than 10 characters. -/
def stageFallback (h : H2Ctx) : Bool :=
  h.anchorDesc && decide ((strTrim h.text).length > 10)

/-- isOrganicSearchResult (bing.py lines 108-213): the ordered cascade,
short-circuiting on the first confident verdict. -/
def isOrganicSearchResult (h : H2Ctx) : Bool :=
  if stageOrganicContainer h then true
  else if stageResultItem h then true
  else if stageKeyword h then false
  else if stageBlocklist h then false
  else
    match stageLinkVerdict h with
    | some v => v
    | none => stageFallback h

/-- A blocklisted class token on the ancestor two levels above the heading,
which is loop index 2 of the five-level walk of stage 4. -/
def blocklistedTwoUp (h : H2Ctx) : Bool :=
  match h.ancestors with
  | _ :: a2 :: _ => nodeBlocklisted a2
  | _ => false

/-! ## Concrete scenario data used by witnesses and counterexamples -/

/-- C1 witness data: one scan discovering fingerprint a. -/
def c1pre : List (List ScanElem) := [[⟨("a"), true, true⟩]]

/-- C1 witness data: fingerprint a disappears, then reappears. -/
def c1post : List (List ScanElem) := [[⟨("a"), true, false⟩], [⟨("a"), true, true⟩]]

/-- C5 data: fingerprints A and B are discovered visible, then A turns
invisible before the first collection poll. -/
def c5scans12 : List (List ScanElem) :=
  [[⟨("A"), true, true⟩, ⟨("B"), true, true⟩],
   [⟨("A"), true, false⟩, ⟨("B"), true, true⟩]]

/-- C5 data: fingerprint A becomes visible again before the second poll. -/
def c5scans123 : List (List ScanElem) :=
  c5scans12 ++ [[⟨("A"), true, true⟩, ⟨("B"), true, true⟩]]

/-- C5 data: page data for the two fingerprints. -/
def c5resolve : String → Option PageInfo :=
  fun fp =>
    if fp = ("A") then some ⟨("titleA"), ("https://a.example/"), ("a.example")⟩
    else if fp = ("B") then some ⟨("titleB"), ("https://b.example/"), ("b.example")⟩
    else none

/-- C5 data: the polls the collector sees, each produced by
getHighlightedLinksInfo on the genuine tracker state at poll time. -/
def c5env : Nat → PollStep :=
  fun i =>
    if i = 0 then ⟨some (getHighlightedLinksInfo (trackerRun c5scans12) c5resolve), true, some false⟩
    else ⟨some (getHighlightedLinksInfo (trackerRun c5scans123) c5resolve), true, some false⟩

/-- C6 data: the three qualifying links present on the full page. -/
def c6links : List Link :=
  [⟨1, ("t1"), ("https://one.example/"), ("one.example")⟩,
   ⟨2, ("t2"), ("https://two.example/"), ("two.example")⟩,
   ⟨3, ("t3"), ("https://three.example/"), ("three.example")⟩]

/-- C6 data: the first poll yields the three links and the page bottom is
detected on the same iteration. -/
def c6env : Nat → PollStep :=
  fun i => if i = 0 then ⟨some c6links, true, some true⟩ else ⟨some [], true, some true⟩

/-- C4 witness data: a Google result set. -/
def c4g : List Link := [⟨1, ("g1"), ("https://foo.example/page"), ("foo.example")⟩]

/-- C4 witness data: a Bing result set overlapping Google on one URL. -/
def c4b : List Link :=
  [⟨1, ("b1"), ("https://foo.example/page"), ("foo.example")⟩,
   ⟨2, ("b2"), ("https://bar.example/"), ("bar.example")⟩]

/-- C8 witness data: the scroll evaluation fails on every attempt. -/
def c8env1 : Nat → PollStep := fun _ => ⟨none, false, some false⟩

/-- C8 witness data: the poll evaluation fails but scrolling succeeds. -/
def c8env2 : Nat → PollStep := fun _ => ⟨none, true, some false⟩

/-- C9 data: an organic result container. -/
def c9algo : BElem := ⟨("div"), ("b_algo"), (""), false, false, false⟩

/-- C9 data: an ancestor carrying the blocklisted class b_ad. -/
def c9ad : BElem := ⟨("div"), ("b_ad"), (""), false, false, false⟩

/-- C9 data: an ancestor with no matched selector or token. -/
def c9plain : BElem := ⟨("div"), (""), (""), false, false, false⟩

/-- C9 data: a bare heading element. -/
def c9h2 : BElem := ⟨("h2"), (""), (""), false, false, false⟩

/-- C9 counterexample input: b_ad two levels up, but the direct parent
matches the organic-container selector. -/
def c9x : H2Ctx :=
  ⟨c9h2, [c9algo, c9ad], ("Example result title"), true, some ("https://example.com/")⟩

/-- C9 witness input: b_ad two levels up and no earlier cascade stage
matches. -/
def c9w : H2Ctx := ⟨c9h2, [c9plain, c9ad], ("zzz"), true, some ("https://example.com/")⟩

/-! ## Association-list lemmas -/

theorem mapGet_append_left {l l' : List (String × Nat)} {k : String} {n : Nat}
    (h : mapGet l k = some n) : mapGet (l ++ l') k = some n := by
  induction l with
  | nil => simp [mapGet] at h
  | cons p ps ih =>
    by_cases hp : p.1 = k
    · simpa [mapGet, hp] using h
    · rw [List.cons_append, mapGet, if_neg hp]
      rw [mapGet, if_neg hp] at h
      exact ih h

theorem mapGet_append_none {l l' : List (String × Nat)} {k : String}
    (h : mapGet l k = none) : mapGet (l ++ l') k = mapGet l' k := by
  induction l with
  | nil => simp
  | cons p ps ih =>
    by_cases hp : p.1 = k
    · rw [mapGet, if_pos hp] at h; exact absurd h (by simp)
    · rw [mapGet, if_neg hp] at h
      rw [List.cons_append, mapGet, if_neg hp]
      exact ih h

theorem mapGet_eq_none_iff {l : List (String × Nat)} {k : String} :
    mapGet l k = none ↔ k ∉ l.map Prod.fst := by
  induction l with
  | nil => simp [mapGet]
  | cons p ps ih =>
    by_cases hp : p.1 = k
    · simp [mapGet, hp]
    · simp [mapGet, hp, ih, Ne.symm hp]

theorem mapGet_mem {l : List (String × Nat)} {k : String} {n : Nat}
    (h : mapGet l k = some n) : (k, n) ∈ l := by
  induction l with
  | nil => simp [mapGet] at h
  | cons p ps ih =>
    by_cases hp : p.1 = k
    · rw [mapGet, if_pos hp] at h
      have hp2 : p.2 = n := Option.some.inj h
      have hpk : p = (k, n) := by
        cases p
        simp_all
      exact hpk ▸ List.mem_cons_self _ _
    · rw [mapGet, if_neg hp] at h
      exact List.mem_cons_of_mem _ (ih h)

theorem mapGet_singleton {k : String} {n : Nat} : mapGet [(k, n)] k = some n := by
  simp [mapGet]

/-! ## Tracker invariant -/

/-- The invariant of the persistent numbering tracker: the numbers stored in
processedLinks, in discovery order, are exactly 1, 2, ..., counter; the
fingerprints of both maps are free of duplicates; and every active
highlight carries the number processedLinks assigns to its fingerprint. -/
structure GoodState (s : TrackerState) : Prop where
  nums : s.processedLinks.map Prod.snd = List.range' 1 s.counter
  keysNodup : (s.processedLinks.map Prod.fst).Nodup
  activeKeysNodup : (s.activeHighlights.map Prod.fst).Nodup
  activeConsistent : ∀ p ∈ s.activeHighlights, mapGet s.processedLinks p.1 = some p.2

theorem initTracker_good : GoodState initTracker := by
  constructor <;> simp [initTracker, List.range']

theorem trackStep_processedLinks_fp (s : TrackerState) (fp : String) :
    (mapGet (trackStep s fp).processedLinks fp).isSome := by
  unfold trackStep
  split
  · rename_i h
    rw [mapGet_append_none (Option.eq_none_of_isNone (by simpa using h)), mapGet_singleton]
    rfl
  · rename_i h
    have h' : mapGet s.processedLinks fp ≠ none := by simpa using h
    exact Option.ne_none_iff_isSome.mp h'

theorem trackStep_mono {s : TrackerState} {k : String} {n : Nat} (fp : String)
    (h : mapGet s.processedLinks k = some n) :
    mapGet (trackStep s fp).processedLinks k = some n := by
  unfold trackStep
  split
  · exact mapGet_append_left h
  · exact h

theorem trackStep_good {s : TrackerState} (g : GoodState s) (fp : String) :
    GoodState (trackStep s fp) := by
  unfold trackStep
  split
  · rename_i h
    have hfp : fp ∉ s.processedLinks.map Prod.fst :=
      mapGet_eq_none_iff.mp (Option.eq_none_of_isNone (by simpa using h))
    constructor
    · show (s.processedLinks ++ [(fp, s.counter + 1)]).map Prod.snd
        = List.range' 1 (s.counter + 1)
      rw [List.map_append, g.nums, List.range'_concat]
      simp
      omega
    · show ((s.processedLinks ++ [(fp, s.counter + 1)]).map Prod.fst).Nodup
      rw [List.map_append]
      simp [List.nodup_append, g.keysNodup, hfp]
    · exact g.activeKeysNodup
    · intro p hp
      exact mapGet_append_left (g.activeConsistent p hp)
  · exact g

theorem highlightStep_processedLinks (s : TrackerState) (fp : String) :
    (highlightStep s fp).processedLinks = s.processedLinks := by
  unfold highlightStep
  split <;> rfl

theorem highlightStep_good {s : TrackerState} (g : GoodState s) (fp : String)
    (hfp : (mapGet s.processedLinks fp).isSome) :
    GoodState (highlightStep s fp) := by
  unfold highlightStep
  split
  · rename_i h
    have hnot : fp ∉ s.activeHighlights.map Prod.fst :=
      mapGet_eq_none_iff.mp (Option.eq_none_of_isNone (by simpa using h))
    obtain ⟨n, hn⟩ := Option.isSome_iff_exists.mp hfp
    constructor
    · exact g.nums
    · exact g.keysNodup
    · show ((s.activeHighlights ++ [(fp, (mapGet s.processedLinks fp).getD 0)]).map Prod.fst).Nodup
      rw [List.map_append]
      simp [List.nodup_append, g.activeKeysNodup, hnot]
    · intro p hp
      rcases List.mem_append.mp hp with hold | hnew
      · exact g.activeConsistent p hold
      · have : p = (fp, (mapGet s.processedLinks fp).getD 0) := by simpa using hnew
        subst this
        simp [hn]
  · exact g

theorem observeElem_good {sv : TrackerState × List String} (g : GoodState sv.1)
    (e : ScanElem) : GoodState (observeElem sv e).1 := by
  unfold observeElem
  split
  · exact highlightStep_good (trackStep_good g e.fp) e.fp (trackStep_processedLinks_fp sv.1 e.fp)
  · exact g

theorem observeElem_mono {sv : TrackerState × List String} {k : String} {n : Nat}
    (e : ScanElem) (h : mapGet sv.1.processedLinks k = some n) :
    mapGet (observeElem sv e).1.processedLinks k = some n := by
  unfold observeElem
  split
  · rw [highlightStep_processedLinks]
    exact trackStep_mono e.fp h
  · exact h

theorem foldl_observeElem_good (elems : List ScanElem) :
    ∀ sv : TrackerState × List String, GoodState sv.1 →
      GoodState (elems.foldl observeElem sv).1 := by
  induction elems with
  | nil => intro sv g; exact g
  | cons e es ih => intro sv g; exact ih _ (observeElem_good g e)

theorem foldl_observeElem_mono (elems : List ScanElem) {k : String} {n : Nat} :
    ∀ sv : TrackerState × List String, mapGet sv.1.processedLinks k = some n →
      mapGet (elems.foldl observeElem sv).1.processedLinks k = some n := by
  induction elems with
  | nil => intro sv h; exact h
  | cons e es ih => intro sv h; exact ih _ (observeElem_mono e h)

theorem filterActives_good {s : TrackerState} (g : GoodState s)
    (p : String × Nat → Bool) :
    GoodState { s with activeHighlights := s.activeHighlights.filter p } := by
  constructor
  · exact g.nums
  · exact g.keysNodup
  · exact g.activeKeysNodup.sublist ((s.activeHighlights.filter_sublist).map Prod.fst)
  · intro q hq
    exact g.activeConsistent q (List.mem_of_mem_filter hq)

theorem processScan_good {s : TrackerState} (g : GoodState s) (elems : List ScanElem) :
    GoodState (processScan s elems) := by
  unfold processScan
  exact filterActives_good (foldl_observeElem_good elems (s, []) g) _

theorem processScan_mono {s : TrackerState} {k : String} {n : Nat} (elems : List ScanElem)
    (h : mapGet s.processedLinks k = some n) :
    mapGet (processScan s elems).processedLinks k = some n := by
  unfold processScan
  exact foldl_observeElem_mono elems (s, []) h

theorem foldl_processScan_good (scans : List (List ScanElem)) :
    ∀ s : TrackerState, GoodState s → GoodState (scans.foldl processScan s) := by
  induction scans with
  | nil => intro s g; exact g
  | cons x xs ih => intro s g; exact ih _ (processScan_good g x)

theorem foldl_processScan_mono (scans : List (List ScanElem)) {k : String} {n : Nat} :
    ∀ s : TrackerState, mapGet s.processedLinks k = some n →
      mapGet (scans.foldl processScan s).processedLinks k = some n := by
  induction scans with
  | nil => intro s h; exact h
  | cons x xs ih => intro s h; exact ih _ (processScan_mono x h)

theorem trackerRun_good (scans : List (List ScanElem)) : GoodState (trackerRun scans) :=
  foldl_processScan_good scans initTracker initTracker_good

/-! ## Claim C1 -/

/-- C1: within one engine session, a fingerprint's assigned number is
stable: once processedLinks maps a fingerprint to a number after some
sequence of scans, every extension of the session by further discovery,
disappearance and reappearance scans leaves that mapping untouched, and
whenever the fingerprint is re-highlighted its active highlight carries
exactly the originally assigned number. -/
theorem tracker_number_invariant (pre post : List (List ScanElem)) (fp : String) (n : Nat)
    (h : mapGet (trackerRun pre).processedLinks fp = some n) :
    mapGet (trackerRun (pre ++ post)).processedLinks fp = some n ∧
    ∀ m, mapGet (trackerRun (pre ++ post)).activeHighlights fp = some m → m = n := by
  have hrun : trackerRun (pre ++ post) = post.foldl processScan (trackerRun pre) := by
    unfold trackerRun
    exact List.foldl_append _ _ _ _
  have hmono : mapGet (trackerRun (pre ++ post)).processedLinks fp = some n := by
    rw [hrun]
    exact foldl_processScan_mono post (trackerRun pre) h
  refine ⟨hmono, ?_⟩
  intro m hm
  have g := trackerRun_good (pre ++ post)
  have hconsist := g.activeConsistent (fp, m) (mapGet_mem hm)
  exact Option.some.inj (hconsist.symm.trans hmono)

/-- Witness for C1 at a concrete session: fingerprint a is discovered with
number 1, disappears, reappears, and still maps to 1, with its re-created
highlight also carrying 1. -/
theorem tracker_number_invariant_app :
    mapGet (trackerRun (c1pre ++ c1post)).processedLinks ("a") = some 1 ∧
    (1 : Nat) = 1 :=
  ⟨(tracker_number_invariant c1pre c1post ("a") 1 (by decide)).1,
   (tracker_number_invariant c1pre c1post ("a") 1 (by decide)).2 1 (by decide)⟩

/-! ## Claim C2 -/

/-- C2: within one engine session the numbers assigned by the tracker, in
order of first discovery, are exactly the gapless sequence 1, 2, ...,
counter, so the k-th newly discovered fingerprint receives exactly the
number k. -/
theorem tracker_numbers_contiguous (scans : List (List ScanElem)) :
    (trackerRun scans).processedLinks.map Prod.snd
      = List.range' 1 (trackerRun scans).counter ∧
    (trackerRun scans).processedLinks.length = (trackerRun scans).counter := by
  have g := trackerRun_good scans
  refine ⟨g.nums, ?_⟩
  have h := congrArg List.length g.nums
  simpa [List.length_range'] using h

/-! ## Collector-loop invariants -/

theorem addLink_bound {numLinks : Nat} {excl : List String}
    {acc : List Link × List String} {link : Link}
    (h1 : acc.1.length ≤ numLinks)
    (h2 : acc.1.all (fun l => !(excludedHit excl l.domain)) = true) :
    (addLink numLinks excl acc link).1.length ≤ numLinks ∧
    (addLink numLinks excl acc link).1.all (fun l => !(excludedHit excl l.domain)) = true := by
  unfold addLink
  split
  · rename_i hc
    split
    · exact ⟨h1, h2⟩
    · rename_i hex
      constructor
      · simpa using hc.2
      · rw [List.all_append]
        simp only [h2, Bool.true_and, List.all_cons, List.all_nil, Bool.and_true]
        simpa using hex
  · exact ⟨h1, h2⟩

theorem foldl_addLink_bound {numLinks : Nat} {excl : List String} (links : List Link) :
    ∀ acc : List Link × List String, acc.1.length ≤ numLinks →
      acc.1.all (fun l => !(excludedHit excl l.domain)) = true →
      ((links.foldl (addLink numLinks excl) acc).1.length ≤ numLinks ∧
       (links.foldl (addLink numLinks excl) acc).1.all
         (fun l => !(excludedHit excl l.domain)) = true) := by
  induction links with
  | nil => intro acc h1 h2; exact ⟨h1, h2⟩
  | cons x xs ih =>
    intro acc h1 h2
    have := @addLink_bound numLinks excl acc x h1 h2
    exact ih _ this.1 this.2

theorem addPoll_bound {numLinks : Nat} {excl : List String} {coll : List Link}
    {urls : List String} (links : List Link)
    (h1 : coll.length ≤ numLinks)
    (h2 : coll.all (fun l => !(excludedHit excl l.domain)) = true) :
    (addPoll numLinks excl coll urls links).1.length ≤ numLinks ∧
    (addPoll numLinks excl coll urls links).1.all
      (fun l => !(excludedHit excl l.domain)) = true :=
  foldl_addLink_bound links (coll, urls) h1 h2

theorem collectLoop_bound {numLinks : Nat} {excl : List String} {env : Nat → PollStep} :
    ∀ (fuel : Nat) (coll : List Link) (urls : List String) (attempts : Nat),
      coll.length ≤ numLinks →
      coll.all (fun l => !(excludedHit excl l.domain)) = true →
      ((collectLoop numLinks excl env coll urls attempts fuel).length ≤ numLinks ∧
       (collectLoop numLinks excl env coll urls attempts fuel).all
         (fun l => !(excludedHit excl l.domain)) = true) := by
  intro fuel
  induction fuel with
  | zero => intro coll urls attempts h1 h2; exact ⟨h1, h2⟩
  | succ f ih =>
    intro coll urls attempts h1 h2
    rw [collectLoop]
    split
    · have hacc := @addPoll_bound numLinks excl coll urls ((env attempts).polled.getD []) h1 h2
      split
      · exact hacc
      · split
        · exact hacc
        · split
          · exact hacc
          · exact ih _ _ _ hacc.1 hacc.2
    · exact ⟨h1, h2⟩

/-! ## Claim C3 -/

/-- C3: for every target count, excluded-pattern list and poll environment,
collect_links returns at most numLinks entries and none of the returned
entries has a domain matching an excluded pattern (the per-engine pattern
lists being google_excluded_domains and bing_excluded_domains). -/
theorem collect_links_bounded (numLinks : Nat) (excl : List String)
    (env : Nat → PollStep) :
    (collect_links numLinks excl env).length ≤ numLinks ∧
    (collect_links numLinks excl env).all
      (fun l => !(excludedHit excl l.domain)) = true := by
  unfold collect_links
  exact collectLoop_bound 20 [] [] 0 (by simp) (by simp)

/-! ## URL uniqueness of a single engine's collection -/

theorem addLink_urls {numLinks : Nat} {excl : List String}
    {acc : List Link × List String} {link : Link}
    (h1 : acc.2 = acc.1.map Link.url) (h2 : (acc.1.map Link.url).Nodup) :
    (addLink numLinks excl acc link).2 = (addLink numLinks excl acc link).1.map Link.url ∧
    ((addLink numLinks excl acc link).1.map Link.url).Nodup := by
  unfold addLink
  split
  · rename_i hc
    split
    · exact ⟨h1, h2⟩
    · constructor
      · simp [h1]
      · rw [List.map_append]
        have hnew : link.url ∉ acc.1.map Link.url := h1 ▸ hc.1
        simp [List.nodup_append, h2, hnew]
  · exact ⟨h1, h2⟩

theorem foldl_addLink_urls {numLinks : Nat} {excl : List String} (links : List Link) :
    ∀ acc : List Link × List String, acc.2 = acc.1.map Link.url →
      (acc.1.map Link.url).Nodup →
      ((links.foldl (addLink numLinks excl) acc).2
         = (links.foldl (addLink numLinks excl) acc).1.map Link.url ∧
       ((links.foldl (addLink numLinks excl) acc).1.map Link.url).Nodup) := by
  induction links with
  | nil => intro acc h1 h2; exact ⟨h1, h2⟩
  | cons x xs ih =>
    intro acc h1 h2
    have := @addLink_urls numLinks excl acc x h1 h2
    exact ih _ this.1 this.2

theorem collectLoop_urls_nodup {numLinks : Nat} {excl : List String} {env : Nat → PollStep} :
    ∀ (fuel : Nat) (coll : List Link) (urls : List String) (attempts : Nat),
      urls = coll.map Link.url → (coll.map Link.url).Nodup →
      ((collectLoop numLinks excl env coll urls attempts fuel).map Link.url).Nodup := by
  intro fuel
  induction fuel with
  | zero => intro coll urls attempts _ h2; exact h2
  | succ f ih =>
    intro coll urls attempts h1 h2
    rw [collectLoop]
    split
    · have hacc := @foldl_addLink_urls numLinks excl
        ((env attempts).polled.getD []) (coll, urls) h1 h2
      split
      · exact hacc.2
      · split
        · exact hacc.2
        · split
          · exact hacc.2
          · exact ih _ _ _ hacc.1 hacc.2
    · exact h2

theorem collect_links_urls_nodup (numLinks : Nat) (excl : List String)
    (env : Nat → PollStep) :
    ((collect_links numLinks excl env).map Link.url).Nodup := by
  unfold collect_links
  exact collectLoop_urls_nodup 20 [] [] 0 (by simp) (by simp)

/-! ## Merge lemmas -/

theorem length_filter_split {α : Type} (p : α → Prop) [DecidablePred p] (l : List α) :
    (l.filter (fun a => decide (p a))).length
      + (l.filter (fun a => decide (¬ p a))).length = l.length := by
  induction l with
  | nil => simp
  | cons x xs ih =>
    simp only [decide_not] at ih ⊢
    by_cases hx : p x <;> simp [hx] <;> omega

/-! ## Claim C4 -/

/-- C4: whenever the two engine result sets each contain no repeated URL
(which collect_links guarantees, second conjunct), the merged two-engine
output of format_results contains no URL twice: the kept Bing list is
exactly the Bing links whose URL is absent from Google's set, Google's
links pass through unchanged, and the reported removed-duplicate count
equals exactly the number of Bing links dropped. -/
theorem merge_dedup_correct :
    (∀ g b : List Link, (g.map Link.url).Nodup → (b.map Link.url).Nodup →
      (((g ++ (mergeBing g b).1).map Link.url).Nodup ∧
       (mergeBing g b).1 = b.filter (fun l => decide (l.url ∉ g.map Link.url)) ∧
       (mergeBing g b).2
         = (b.filter (fun l => decide (l.url ∈ g.map Link.url))).length))
    ∧ (∀ (numLinks : Nat) (excl : List String) (env : Nat → PollStep),
        ((collect_links numLinks excl env).map Link.url).Nodup) := by
  constructor
  · intro g b hg hb
    refine ⟨?_, rfl, ?_⟩
    · rw [List.map_append]
      have hsub : ((mergeBing g b).1.map Link.url).Nodup := by
        have : (mergeBing g b).1.Sublist b := List.filter_sublist b
        exact hb.sublist (this.map Link.url)
      rw [List.nodup_append]
      refine ⟨hg, hsub, ?_⟩
      intro u hu hu2
      obtain ⟨l, hl, hlu⟩ := List.mem_map.mp hu2
      have hmem := List.mem_filter.mp hl
      have : l.url ∉ g.map Link.url := by simpa using hmem.2
      exact this (hlu ▸ hu)
    · show b.length - (b.filter (fun l => decide (l.url ∉ g.map Link.url))).length
        = (b.filter (fun l => decide (l.url ∈ g.map Link.url))).length
      have hsplit := length_filter_split (fun l : Link => l.url ∈ g.map Link.url) b
      have hle : (b.filter (fun l => decide (l.url ∉ g.map Link.url))).length ≤ b.length :=
        List.length_filter_le _ _
      omega
  · exact collect_links_urls_nodup

/-- Witness for C4 at a concrete overlapping pair: the shared URL survives
once (in the Google copy), and the removed count is exactly the one
dropped Bing link. -/
theorem merge_dedup_correct_app :
    ((c4g ++ (mergeBing c4g c4b).1).map Link.url).Nodup ∧
    (mergeBing c4g c4b).2
      = (c4b.filter (fun l => decide (l.url ∈ c4g.map Link.url))).length :=
  ⟨(merge_dedup_correct.1 c4g c4b (by decide) (by decide)).1,
   (merge_dedup_correct.1 c4g c4b (by decide) (by decide)).2.2⟩

/-! ## Sortedness of one poll -/

theorem mem_insertByNumber {x z : Link} {l : List Link} :
    z ∈ insertByNumber x l ↔ z = x ∨ z ∈ l := by
  induction l with
  | nil => simp [insertByNumber]
  | cons y ys ih =>
    rw [insertByNumber]
    split
    · exact List.mem_cons
    · constructor
      · intro h
        rcases List.mem_cons.mp h with h | h
        · exact Or.inr (by simp [h])
        · rcases ih.mp h with h | h
          · exact Or.inl h
          · exact Or.inr (by simp [h])
      · intro h
        rcases h with h | h
        · exact List.mem_cons_of_mem _ (ih.mpr (Or.inl h))
        · rcases List.mem_cons.mp h with h | h
          · simp [h]
          · exact List.mem_cons_of_mem _ (ih.mpr (Or.inr h))

theorem pairwise_insertByNumber {x : Link} {l : List Link}
    (h : List.Pairwise (fun a b : Link => a.number ≤ b.number) l) :
    List.Pairwise (fun a b : Link => a.number ≤ b.number) (insertByNumber x l) := by
  induction l with
  | nil => simp [insertByNumber]
  | cons y ys ih =>
    rw [insertByNumber]
    rcases List.pairwise_cons.mp h with ⟨hy, hys⟩
    split
    · rename_i hxy
      refine List.pairwise_cons.mpr ⟨?_, h⟩
      intro z hz
      rcases List.mem_cons.mp hz with h | h
      · exact h ▸ hxy
      · exact le_trans hxy (hy z h)
    · rename_i hxy
      have hyx : y.number ≤ x.number := le_of_not_le hxy
      refine List.pairwise_cons.mpr ⟨?_, ih hys⟩
      intro z hz
      rcases mem_insertByNumber.mp hz with h | h
      · exact h ▸ hyx
      · exact hy z h

theorem pairwise_sortByNumber (l : List Link) :
    List.Pairwise (fun a b : Link => a.number ≤ b.number) (sortByNumber l) := by
  induction l with
  | nil => simp [sortByNumber]
  | cons x xs ih =>
    rw [sortByNumber, List.foldr_cons]
    exact pairwise_insertByNumber ih

/-! ## Claim C5 -/

/-- C5 amended: each single poll of the tracker, as produced by
getHighlightedLinksInfo, is sorted ascending by assigned number; the
accumulated collect_links sequence preserves first-collection order
instead, so the returned EngineResult sequence is ascending only when no
lower-numbered link first becomes collectible after a higher-numbered link
has already been collected. -/
theorem poll_links_sorted (s : TrackerState) (resolve : String → Option PageInfo) :
    List.Pairwise (fun a b : Link => a.number ≤ b.number)
      (getHighlightedLinksInfo s resolve) :=
  pairwise_sortByNumber _

/-- C5 counterexample: fingerprint A receives number 1, is invisible at the
first poll, and reappears by the second poll; the collector then returns
the sequence with numbers [2, 1], which is not ascending, even though every
single poll it consumed was sorted. -/
theorem collected_order_cex :
    (collect_links 2 [] c5env).map Link.number = [2, 1] ∧
    ¬ List.Pairwise (fun a b : Nat => a ≤ b) ((collect_links 2 [] c5env).map Link.number) := by
  have h : (collect_links 2 [] c5env).map Link.number = [2, 1] := by decide
  refine ⟨h, ?_⟩
  rw [h]
  decide

/-! ## Claim C6 -/

/-- C6: a session whose search succeeds and raises no exception always
reports status success carrying exactly the collector's output, even when
that output is shorter than the target; concretely, with target count 5 and
only 3 qualifying links on the full page (bottom detected on the first
attempt), collect_links returns the 3 links and the session result is
success, not a failure. -/
theorem session_success_on_bottom :
    (∀ (name : String) (numLinks : Nat) (excl : List String) (env : SessionEnv),
      env.fault = none → env.searchOk = true →
      runSession name numLinks excl env =
        ⟨name, collect_links numLinks excl env.polls, ("success"), none⟩)
    ∧ collect_links 5 bing_excluded_domains c6env = c6links
    ∧ c6links.length = 3 := by
  refine ⟨?_, by decide, by decide⟩
  intro name numLinks excl env h1 h2
  unfold runSession
  rw [h1, h2]
  simp

/-- Witness for C6: the concrete bottom-reached session with target 5 and
three qualifying links reports success with the short list. -/
theorem session_success_on_bottom_app :
    runSession ("Bing") 5 bing_excluded_domains ⟨none, true, c6env⟩ =
      ⟨("Bing"), collect_links 5 bing_excluded_domains c6env, ("success"), none⟩ :=
  session_success_on_bottom.1 ("Bing") 5 bing_excluded_domains ⟨none, true, c6env⟩ rfl rfl

/-! ## Claim C7 -/

/-- C7: the orchestrator always returns exactly two EngineResults, one per
engine; when one session's task raises, its entry is a failed result whose
error field captures the raised text, while the other session's result
passes through completely unchanged (and may be success); a navigation-time
exception inside a session likewise yields the failed result with the
captured error text. -/
theorem orchestrator_fault_isolation (e : String) (r : EngineResult)
    (g b : Except String EngineResult) (name : String) (numLinks : Nat)
    (excl : List String) (env : SessionEnv) :
    run_scrapers (Except.error e) (Except.ok r)
        = [⟨("Google"), [], ("failed"), some e⟩, r]
    ∧ run_scrapers (Except.ok r) (Except.error e)
        = [r, ⟨("Bing"), [], ("failed"), some e⟩]
    ∧ (run_scrapers g b).length = 2
    ∧ runSession name numLinks excl ⟨some e, env.searchOk, env.polls⟩
        = ⟨name, [], ("failed"), some e⟩ :=
  ⟨rfl, rfl, rfl, rfl⟩

/-! ## Claim C8 -/

theorem collectLoop_congr {numLinks : Nat} {excl : List String}
    {env1 env2 : Nat → PollStep}
    (h : ∀ i, (env1 i).polled.getD [] = (env2 i).polled.getD []
      ∧ (env1 i).scrollOk = (env2 i).scrollOk
      ∧ (env1 i).atBottom = (env2 i).atBottom) :
    ∀ (fuel : Nat) (coll : List Link) (urls : List String) (attempts : Nat),
      collectLoop numLinks excl env1 coll urls attempts fuel
        = collectLoop numLinks excl env2 coll urls attempts fuel := by
  intro fuel
  induction fuel with
  | zero => intro coll urls attempts; rfl
  | succ f ih =>
    intro coll urls attempts
    rw [collectLoop, collectLoop,
      (h attempts).1, (h attempts).2.1, (h attempts).2.2]
    split
    · split
      · rfl
      · split
        · rfl
        · split
          · rfl
          · exact ih _ _ _
    · rfl

/-- C8: the two failure modes of the collection loop behave differently.
First conjunct: a script-evaluation failure on any poll (polled = none) is
read exactly as that poll returning no links, so replacing the failed poll
by an explicit empty result leaves collect_links unchanged. Second
conjunct: when the scroll evaluation fails, the loop stops at once and
returns the partial collection accumulated through the current poll. Third
conjunct: after a failed poll with a successful scroll and no bottom
detected, the loop simply continues with the next attempt. -/
theorem poll_failure_vs_scroll_failure :
    (∀ (numLinks : Nat) (excl : List String) (env : Nat → PollStep) (k : Nat),
      collect_links numLinks excl (maskPolledAt env k) = collect_links numLinks excl env)
    ∧ (∀ (numLinks : Nat) (excl : List String) (env : Nat → PollStep)
        (coll : List Link) (urls : List String) (attempts fuel : Nat),
        (env attempts).scrollOk = false →
        collectLoop numLinks excl env coll urls attempts (fuel + 1)
          = if coll.length < numLinks then
              (addPoll numLinks excl coll urls ((env attempts).polled.getD [])).1
            else coll)
    ∧ (∀ (numLinks : Nat) (excl : List String) (env : Nat → PollStep)
        (coll : List Link) (urls : List String) (attempts fuel : Nat),
        coll.length < numLinks → (env attempts).polled = none →
        (env attempts).scrollOk = true → (env attempts).atBottom.getD false = false →
        collectLoop numLinks excl env coll urls attempts (fuel + 1)
          = collectLoop numLinks excl env coll urls (attempts + 1) fuel) := by
  refine ⟨?_, ?_, ?_⟩
  · intro numLinks excl env k
    unfold collect_links
    refine collectLoop_congr ?_ 20 [] [] 0
    intro i
    unfold maskPolledAt
    by_cases hik : i = k
    · subst hik
      simp
    · simp [hik]
  · intro numLinks excl env coll urls attempts fuel hscroll
    rw [collectLoop]
    split
    · rename_i hlen
      split
      · simp
      · rw [hscroll]
        simp
    · rfl
  · intro numLinks excl env coll urls attempts fuel hlen hpoll hscroll hbottom
    have hns : ¬ numLinks ≤ coll.length := by omega
    simp [collectLoop, addPoll, hlen, hpoll, hscroll, hbottom, hns]

/-- Witness for C8 at concrete environments: with a failing scroll the loop
returns the (empty) partial collection immediately; with a failing poll but
a working scroll it proceeds to the next attempt. -/
theorem poll_failure_vs_scroll_failure_app :
    collectLoop 3 [] c8env1 [] [] 0 (19 + 1)
        = (if ([] : List Link).length < 3 then
            (addPoll 3 [] [] [] (((c8env1 0).polled).getD [])).1
          else [])
    ∧ collectLoop 3 [] c8env2 [] [] 0 (19 + 1) = collectLoop 3 [] c8env2 [] [] 1 19 :=
  ⟨poll_failure_vs_scroll_failure.2.1 3 [] c8env1 [] [] 0 19 rfl,
   poll_failure_vs_scroll_failure.2.2 3 [] c8env2 [] [] 0 19 (by decide) rfl rfl rfl⟩

/-! ## Claim C9 -/

/-- C9 counterexample: a heading carrying the blocklisted class b_ad on the
ancestor two levels up (well within the five-level walk) is nevertheless
classified organic, because its direct parent matches the organic-container
selector and stage 1 short-circuits before the blocklist walk runs. -/
theorem blocklist_override_cex :
    blocklistedTwoUp c9x = true ∧ isOrganicSearchResult c9x = true := by
  decide

/-- C9 amended: when neither the organic-container stage nor the
result-item-indicator stage of the cascade matches, a Bing heading with a
blocklisted class token such as b_ad on the ancestor two levels up is
classified non-organic. -/
theorem blocklist_rejects (h : H2Ctx)
    (h1 : stageOrganicContainer h = false)
    (h2 : stageResultItem h = false)
    (h3 : blocklistedTwoUp h = true) :
    isOrganicSearchResult h = false := by
  have hb : stageBlocklist h = true := by
    unfold blocklistedTwoUp at h3
    unfold stageBlocklist bingChain
    rcases hanc : h.ancestors with _ | ⟨a1, _ | ⟨a2, rest2⟩⟩
    · rw [hanc] at h3
      simp at h3
    · rw [hanc] at h3
      simp at h3
    · rw [hanc] at h3
      simp only [List.take_succ_cons, List.any_cons]
      simp at h3
      simp [h3]
  simp [isOrganicSearchResult, h1, h2, hb]

/-- Witness for C9 at a concrete heading: b_ad two levels up, no earlier
cascade stage matching, classified non-organic. -/
theorem blocklist_rejects_app : isOrganicSearchResult c9w = false :=
  blocklist_rejects c9w (by decide) (by decide) (by decide)

/-! ## Claim C10 -/

theorem runSession_failed_ok (name : String) (numLinks : Nat) (excl : List String)
    (env : SessionEnv) : failedImpliesEmpty (runSession name numLinks excl env) = true := by
  unfold runSession
  cases hf : env.fault with
  | some e =>
    unfold failedImpliesEmpty
    simp
  | none =>
    cases hs : env.searchOk
    · unfold failedImpliesEmpty
      simp
    · unfold failedImpliesEmpty
      have hne : (("success") != ("failed")) = true := rfl
      simp [hne]

theorem outcome_failed_ok (source name : String) (numLinks : Nat) (excl : List String)
    (crash : Option String) (env : SessionEnv) :
    failedImpliesEmpty (processOutcome source (sessionOutcome name numLinks excl crash env))
      = true := by
  cases crash with
  | some c => simp [sessionOutcome, processOutcome, failedImpliesEmpty]
  | none =>
    simp only [sessionOutcome, processOutcome]
    exact runSession_failed_ok name numLinks excl env

/-- C10: on every failure path of the session and of the orchestrator -
an exception inside run, a False from perform_search, a task fault escaping
run, or a fault in the gather itself - the produced EngineResult with
status failed carries an empty links list together with a non-null error
string; no partially collected links are ever attached to a failed
result. -/
theorem failed_results_have_empty_links
    (numLinks : Nat) (exclG exclB : List String) (crashG crashB : Option String)
    (envG envB : SessionEnv) (e : String) :
    ((run_scrapers (sessionOutcome ("Google") numLinks exclG crashG envG)
        (sessionOutcome ("Bing") numLinks exclB crashB envB)).all failedImpliesEmpty) = true
    ∧ ((runScrapersCrash e).all failedImpliesEmpty) = true := by
  constructor
  · simp [run_scrapers, List.all_cons, List.all_nil, outcome_failed_ok]
  · simp [runScrapersCrash, failedImpliesEmpty]
